import Mathlib

/- Verification of the easy-vm-cloud management frontend and of the IP pool
allocator contract. Definitions are shallow embeddings of the TypeScript
sources under frontend/src/app and, for the IP pool, of the allocator
contract in the design document. JavaScript numbers used for paging are
embedded as Nat, optional JSON fields as Option, and the JavaScript
or-default idiom (x or d, where 0 and the empty string are falsy) is made
explicit. -/

/-! Shared pagination model.

The three list services (vm.service.ts, network.service.ts,
storage.service.ts) each carry a transform that builds the client side
pagination view from a raw list response. The raw response is modelled
with the flat top level fields page, page_size, total and, to be able to
speak about the alternative wire shape, an optional nested pagination
object. -/

/-- Nested pagination object shape that a server may send. -/
structure NestedPagination where
  current_page : Nat
  per_page : Nat
  total : Nat
deriving DecidableEq

/-- Raw list response carrying the paging fields a server may return:
flat top level page, page_size, total, or a nested pagination object. -/
structure RawListResponse where
  page : Option Nat
  page_size : Option Nat
  total : Option Nat
  pagination : Option NestedPagination
deriving DecidableEq

/-- Pagination view built by the client transforms
(the pagination object of PaginatedResponse). -/
structure PaginationView where
  current_page : Nat
  per_page : Nat
  total : Nat
  total_pages : Nat
  has_next : Bool
  has_prev : Bool
deriving DecidableEq

/-- JavaScript or-default on an optional number: x or d is d when the
field is absent or equal to 0 (0 is falsy in JavaScript). -/
def jsOrNat (v : Option Nat) (d : Nat) : Nat :=
  match v with
  | some n => if n = 0 then d else n
  | none => d

/-- Ceiling division on Nat, the Math.ceil of a quotient used by the
transforms (the divisor is always positive there). -/
def ceilDiv (a b : Nat) : Nat := (a + b - 1) / b

namespace VmSvc

/-- Pagination part of transformVMsResponse in vm.service.ts:
current_page is response.page or 1, per_page is response.page_size or 20,
total is response.total or 0, total_pages is
Math.ceil((response.total or 0) / (response.page_size or 20)),
has_next and has_prev compare against those values. The nested
pagination field of the raw response is never read. -/
def transformVMsPagination (r : RawListResponse) : PaginationView :=
  { current_page := jsOrNat r.page 1
    per_page := jsOrNat r.page_size 20
    total := jsOrNat r.total 0
    total_pages := ceilDiv (jsOrNat r.total 0) (jsOrNat r.page_size 20)
    has_next := decide (jsOrNat r.page 1 < ceilDiv (jsOrNat r.total 0) (jsOrNat r.page_size 20))
    has_prev := decide (1 < jsOrNat r.page 1) }

end VmSvc

namespace NetworkSvc

/-- Pagination part of transformNetworksResponse in network.service.ts,
textually identical to the vm.service.ts transform. -/
def transformNetworksPagination (r : RawListResponse) : PaginationView :=
  { current_page := jsOrNat r.page 1
    per_page := jsOrNat r.page_size 20
    total := jsOrNat r.total 0
    total_pages := ceilDiv (jsOrNat r.total 0) (jsOrNat r.page_size 20)
    has_next := decide (jsOrNat r.page 1 < ceilDiv (jsOrNat r.total 0) (jsOrNat r.page_size 20))
    has_prev := decide (1 < jsOrNat r.page 1) }

end NetworkSvc

namespace StorageSvc

/-- Pagination part of transformStoragePoolsResponse in
storage.service.ts, textually identical to the vm.service.ts transform. -/
def transformStoragePoolsPagination (r : RawListResponse) : PaginationView :=
  { current_page := jsOrNat r.page 1
    per_page := jsOrNat r.page_size 20
    total := jsOrNat r.total 0
    total_pages := ceilDiv (jsOrNat r.total 0) (jsOrNat r.page_size 20)
    has_next := decide (jsOrNat r.page 1 < ceilDiv (jsOrNat r.total 0) (jsOrNat r.page_size 20))
    has_prev := decide (1 < jsOrNat r.page 1) }

end StorageSvc

namespace WebSocketSvc

/-- FrontendMessage interface of websocket.service.ts: a type tag plus
optional payload fields. -/
structure FrontendMessage where
  type : String
  vm_id : Option String
  node_id : Option String
  task_id : Option String
  status : Option String
  progress : Option Nat
  message : Option String
  title : Option String
  level : Option String
  timestamp : Option Nat
deriving DecidableEq

/-- Payloads pushed to the four dedicated typed streams of
WebSocketService. -/
inductive TypedEvent where
  | vmStatus (vm_id status : String) (message : Option String)
  | nodeStatus (node_id status : String) (message : Option String)
  | taskStatus (task_id status : String) (progress : Option Nat) (message : Option String)
  | systemNotification (title message level : String)
deriving DecidableEq

/-- handleMessage of websocket.service.ts: the switch over message.type.
A case fires only when its required fields are truthy (present and non
empty, the JavaScript and-chain); the Pong case only logs, and every
other type falls through, so both yield no typed event. -/
def handleMessage (m : FrontendMessage) : Option TypedEvent :=
  if m.type = "VmStatusUpdate" then
    match m.vm_id, m.status with
    | some v, some s => if v ≠ "" ∧ s ≠ "" then some (.vmStatus v s m.message) else none
    | _, _ => none
  else if m.type = "NodeStatusUpdate" then
    match m.node_id, m.status with
    | some n, some s => if n ≠ "" ∧ s ≠ "" then some (.nodeStatus n s m.message) else none
    | _, _ => none
  else if m.type = "TaskStatusUpdate" then
    match m.task_id, m.status with
    | some t, some s => if t ≠ "" ∧ s ≠ "" then some (.taskStatus t s m.progress m.message) else none
    | _, _ => none
  else if m.type = "SystemNotification" then
    match m.title, m.message, m.level with
    | some t, some msg, some lv =>
        if t ≠ "" ∧ msg ≠ "" ∧ lv ≠ "" then some (.systemNotification t msg lv) else none
    | _, _, _ => none
  else none

/-- Message types that handleMessage forwards to a dedicated typed
stream. -/
def dispatchedTypes : List String :=
  ["VmStatusUpdate", "NodeStatusUpdate", "TaskStatusUpdate", "SystemNotification"]

/-- Heartbeat period of startHeartbeat in websocket.service.ts
(setInterval of 30000 milliseconds). -/
def heartbeatIntervalMs : Nat := 30000

/-- Body of the startHeartbeat callback: when the socket is open it sends
a frame whose type field is ping, otherwise nothing. -/
def heartbeatTick (connected : Bool) : Option String :=
  if connected then some "ping" else none

/-- maxReconnectAttempts field of WebSocketService. -/
def maxReconnectAttempts : Nat := 5

/-- reconnectInterval field of WebSocketService (milliseconds). -/
def reconnectIntervalMs : Nat := 5000

/-- handleReconnect of websocket.service.ts, run on every socket close:
while reconnectAttempts is below maxReconnectAttempts it increments the
counter and schedules connect after reconnectInterval milliseconds,
returning the new counter and the delay; otherwise it gives up and
schedules nothing. -/
def handleReconnect (reconnectAttempts : Nat) : Option (Nat × Nat) :=
  if reconnectAttempts < maxReconnectAttempts then
    some (reconnectAttempts + 1, reconnectIntervalMs)
  else none

/-- Value assigned to reconnectAttempts by the onopen handler. -/
def onOpenAttempts : Nat := 0

/-- Public observable members exposed by WebSocketService
(lines 27 to 49 of websocket.service.ts). -/
def observableMembers : List String :=
  ["messages$", "connectionState$", "vmStatusUpdates$", "nodeStatusUpdates$",
   "taskStatusUpdates$", "systemNotifications$"]

/-- Stream a typed event is pushed to by handleMessage. -/
def streamOf : TypedEvent → String
  | .vmStatus .. => "vmStatusUpdates$"
  | .nodeStatus .. => "nodeStatusUpdates$"
  | .taskStatus .. => "taskStatusUpdates$"
  | .systemNotification .. => "systemNotifications$"

/-- Name of the typed stream, if any, that a raw frontend message is
dispatched to. -/
def dispatchedStream (m : FrontendMessage) : Option String :=
  (handleMessage m).map streamOf

end WebSocketSvc

namespace SnapshotsComp

/-- Service members that setupWebSocketListeners of
snapshots.component.ts subscribes to on the websocket service. -/
def subscribedStreams : List String :=
  ["snapshotStatusUpdates$", "systemNotifications$"]

/-- SnapshotResponse of snapshot.service.ts, restricted to the fields the
snapshots component reads (volume_name is optional). -/
structure SnapshotResponse where
  id : String
  name : String
  volume_id : String
  volume_name : Option String
  status : String
deriving DecidableEq

/-- canRestore of snapshots.component.ts: restore is offered only for
snapshots whose status is available. -/
def canRestore (s : SnapshotResponse) : Bool :=
  s.status == "available"

/-- canDelete of snapshots.component.ts. -/
def canDelete (s : SnapshotResponse) : Bool :=
  s.status == "available" || s.status == "error"

/-- JavaScript template interpolation of an optional string: an absent
value renders as the text undefined. -/
def jsStr (o : Option String) : String := o.getD "undefined"

/-- Requests the snapshots component can send through a dialog. -/
inductive UiRequest where
  | restore (snapshotId : String)
deriving DecidableEq

/-- Configuration of a confirmation dialog: the displayed text and the
request dispatched when the user confirms. -/
structure ConfirmConfig where
  title : String
  content : String
  okAction : UiRequest
deriving DecidableEq

/-- restoreSnapshot of snapshots.component.ts: it opens a confirmation
dialog whose content warns that current data will be overwritten and that
the virtual machine must be stopped, and whose ok handler sends the
restore request for the snapshot. -/
def restoreSnapshotDialog (s : SnapshotResponse) : ConfirmConfig :=
  { title := "确认恢复快照"
    content := "确定要将存储卷 \"" ++ jsStr s.volume_name ++ "\" 恢复到快照 \"" ++ s.name
      ++ "\" 的状态吗？此操作将覆盖当前数据，请确保虚拟机已停止。"
    okAction := UiRequest.restore s.id }

/-- Semantics of NzModalService.confirm as used by the component: the ok
action runs only when the user confirms, cancel dispatches nothing. -/
def confirmRequests (cfg : ConfirmConfig) (confirmed : Bool) : List UiRequest :=
  if confirmed then [cfg.okAction] else []

end SnapshotsComp

namespace VmsComp

/-- Row of the VM list displayed by vms.component.ts (the fields the
status update handler touches). -/
structure VMRow where
  id : String
  name : String
  status : String
deriving DecidableEq

/-- Payload delivered by the vmStatusUpdates$ stream. -/
structure VmStatusMsg where
  vm_id : String
  status : String
  message : Option String
deriving DecidableEq

/-- validStatuses array inside handleVmStatusUpdate of
vms.component.ts. -/
def validStatuses : List String :=
  ["running", "stopped", "stopping", "paused", "error"]

/-- Modelled from the spec: the eight VM lifecycle states of the design
document (section 3 and 4.4), used to compare the spec state set with the
set the component accepts. -/
def specVmLifecycleStates : List String :=
  ["stopped", "starting", "running", "stopping", "paused", "restarting", "migrating", "error"]

/-- handleVmStatusUpdate of vms.component.ts: find the first row whose id
matches the update; when found and the new status is in validStatuses,
overwrite the status of that row, otherwise leave the list unchanged. -/
def handleVmStatusUpdate : List VMRow → VmStatusMsg → List VMRow
  | [], _ => []
  | v :: vs, u =>
    if v.id = u.vm_id then
      (if u.status ∈ validStatuses then { v with status := u.status } :: vs else v :: vs)
    else v :: handleVmStatusUpdate vs u

/-- DiskSpec entry of the create request built by createVm. -/
structure DiskSpec where
  volume_id : String
  device : String
  bootable : Bool
deriving DecidableEq

/-- NetworkInterfaceSpec entry of the create request built by createVm. -/
structure NetworkInterfaceSpec where
  network_id : String
  mac_address : Option String
  ip_address : Option String
  model : String
  bridge_name : Option String
deriving DecidableEq

/-- CreateVMRequest body sent by POST /api/vms. -/
structure CreateVMRequest where
  name : String
  node_id : String
  vcpu : Nat
  memory_mb : Nat
  disks : List DiskSpec
  networks : List NetworkInterfaceSpec
deriving DecidableEq

/-- Form state of the create VM dialog in vms.component.ts. -/
structure VmFormData where
  name : String
  node_id : Option String
  vcpu : Nat
  memory_mb : Nat
  selected_volume_id : Option String
  selected_network_id : Option String
deriving DecidableEq

/-- createVm of vms.component.ts: validate the three selections in source
order (storage volume, network, node), returning the error message shown
when one is missing; otherwise build the request with exactly one disk
entry (device vda, bootable) and one network interface entry (model
virtio, mac, ip and bridge left for the backend). -/
def createVm (fd : VmFormData) : Except String CreateVMRequest :=
  match fd.selected_volume_id with
  | none => .error "请选择存储卷"
  | some vol =>
    match fd.selected_network_id with
    | none => .error "请选择网络"
    | some net =>
      match fd.node_id with
      | none => .error "请选择部署节点"
      | some node =>
        .ok { name := fd.name
              node_id := node
              vcpu := fd.vcpu
              memory_mb := fd.memory_mb
              disks := [{ volume_id := vol, device := "vda", bootable := true }]
              networks := [{ network_id := net, mac_address := none, ip_address := none,
                             model := "virtio", bridge_name := none }] }

end VmsComp

namespace NetworkComp

/-- UpdateNetworkRequest interface of network.service.ts: the fields a
PUT /api/networks body may carry (all optional; node_id is not among
them). The open config object is modelled as an opaque string. -/
structure UpdateNetworkRequest where
  name : Option String
  cidr : Option String
  gateway : Option String
  vlan_id : Option Nat
  mtu : Option Nat
  config : Option String
deriving DecidableEq

/-- Field names declared by the UpdateNetworkRequest interface. -/
def updateNetworkRequestFieldNames : List String :=
  ["name", "cidr", "gateway", "vlan_id", "mtu", "config"]

/-- Names of the fields actually present (serialized) in a request
body. -/
def requestFields (r : UpdateNetworkRequest) : List String :=
  (if r.name.isSome then ["name"] else [])
    ++ (if r.cidr.isSome then ["cidr"] else [])
    ++ (if r.gateway.isSome then ["gateway"] else [])
    ++ (if r.vlan_id.isSome then ["vlan_id"] else [])
    ++ (if r.mtu.isSome then ["mtu"] else [])
    ++ (if r.config.isSome then ["config"] else [])

/-- updateNetwork of network.component.ts: the body sent on edit carries
only the name from the form. -/
def updateNetworkBody (formName : String) : UpdateNetworkRequest :=
  { name := some formName, cidr := none, gateway := none,
    vlan_id := none, mtu := none, config := none }

end NetworkComp

namespace IpPool

/-- Modelled from the spec: the IP pool allocator lives in the server
crate, which is not part of the sources here (only its SQL migration is);
this namespace follows section 4.3 of the design document. A CIDR is a
base address (as a 32 bit number) and a mask length. -/
structure Cidr where
  base : Nat
  maskBits : Nat
deriving DecidableEq

/-- Number of addresses spanned by the CIDR. -/
def hostSpan (c : Cidr) : Nat := 2 ^ (32 - c.maskBits)

/-- Network address of the CIDR (base with host bits cleared). -/
def networkAddress (c : Cidr) : Nat := c.base / hostSpan c * hostSpan c

/-- Broadcast address of the CIDR. -/
def broadcastAddress (c : Cidr) : Nat := networkAddress c + hostSpan c - 1

/-- Status column of an ip_allocations row (00005_networks.sql). -/
inductive AllocStatus where
  | available
  | allocated
  | reserved
deriving DecidableEq

/-- Row of the ip_allocations table for one network. -/
structure IpRow where
  ip : Nat
  vm_id : Option String
  status : AllocStatus
deriving DecidableEq

/-- Modelled from the spec: at network creation the controller enumerates
all addresses in the CIDR, excludes the network, broadcast and gateway
addresses, and inserts one row per remaining address with status
available. -/
def createPool (c : Cidr) (gateway : Option Nat) : List IpRow :=
  (((List.range (hostSpan c)).map (fun i => networkAddress c + i)).filter
    (fun ip => (ip != networkAddress c) && (ip != broadcastAddress c) && (some ip != gateway))).map
    (fun ip => { ip := ip, vm_id := none, status := AllocStatus.available })

/-- Modelled from the spec: the operations the allocator applies to the
rows of one network. -/
inductive PoolOp where
  | allocate
  | associate (ip : Nat) (vm : String)
  | release (vm : String)
  | reserve (ip : Nat)
deriving DecidableEq

/-- Modelled from the spec: allocate atomically turns one available row
into allocated (the per network lock makes the selection sequential; the
first available row is taken here). -/
def allocateFirst : List IpRow → List IpRow
  | [] => []
  | r :: rs =>
    if r.status = AllocStatus.available then { r with status := AllocStatus.allocated } :: rs
    else r :: allocateFirst rs

/-- Modelled from the spec: one committed allocator transition. associate
links a row to a VM, release returns the rows of a VM to available and
clears the link, reserve moves an available row to reserved. -/
def applyOp (rows : List IpRow) : PoolOp → List IpRow
  | .allocate => allocateFirst rows
  | .associate ip vm =>
      rows.map (fun r => if r.ip = ip then { r with vm_id := some vm } else r)
  | .release vm =>
      rows.map (fun r =>
        if r.vm_id = some vm then { r with status := AllocStatus.available, vm_id := none } else r)
  | .reserve ip =>
      rows.map (fun r =>
        if r.ip = ip ∧ r.status = AllocStatus.available then { r with status := AllocStatus.reserved } else r)

/-- Sequence of committed transitions applied to the rows of one
network. -/
def applyOps (rows : List IpRow) (ops : List PoolOp) : List IpRow :=
  ops.foldl applyOp rows

end IpPool

/-! Helper lemmas. -/

namespace IpPool

/-- A pointwise row rewrite that keeps the ip field keeps the list of
ips. -/
theorem map_ip_pointwise (f : IpRow → IpRow) (h : ∀ r, (f r).ip = r.ip) :
    ∀ rows : List IpRow, (rows.map f).map IpRow.ip = rows.map IpRow.ip := by
  intro rows
  induction rows with
  | nil => rfl
  | cons a l ih => simp [List.map_cons, h, ih]

/-- allocateFirst keeps the list of ips. -/
theorem allocateFirst_map_ip :
    ∀ rows : List IpRow, (allocateFirst rows).map IpRow.ip = rows.map IpRow.ip := by
  intro rows
  induction rows with
  | nil => rfl
  | cons a l ih =>
    by_cases h : a.status = AllocStatus.available <;> simp [allocateFirst, h, ih]

/-- Every allocator transition keeps the list of ips. -/
theorem applyOp_map_ip (rows : List IpRow) (op : PoolOp) :
    (applyOp rows op).map IpRow.ip = rows.map IpRow.ip := by
  cases op with
  | allocate => simpa [applyOp] using allocateFirst_map_ip rows
  | associate ip vm =>
    simp only [applyOp]
    refine map_ip_pointwise _ (fun r => ?_) rows
    by_cases h : r.ip = ip <;> simp [h]
  | release vm =>
    simp only [applyOp]
    refine map_ip_pointwise _ (fun r => ?_) rows
    by_cases h : r.vm_id = some vm <;> simp [h]
  | reserve ip =>
    simp only [applyOp]
    refine map_ip_pointwise _ (fun r => ?_) rows
    by_cases h : r.ip = ip ∧ r.status = AllocStatus.available <;> simp [h]

/-- Any sequence of allocator transitions keeps the list of ips. -/
theorem applyOps_map_ip :
    ∀ (ops : List PoolOp) (rows : List IpRow),
      (applyOps rows ops).map IpRow.ip = rows.map IpRow.ip := by
  intro ops
  induction ops with
  | nil => intro rows; rfl
  | cons op ops ih =>
    intro rows
    have h : applyOps rows (op :: ops) = applyOps (applyOp rows op) ops := rfl
    rw [h, ih, applyOp_map_ip]

/-- The ips of the freshly created pool are the filtered address range. -/
theorem createPool_map_ip (c : Cidr) (gw : Option Nat) :
    (createPool c gw).map IpRow.ip =
      ((List.range (hostSpan c)).map (fun i => networkAddress c + i)).filter
        (fun ip => (ip != networkAddress c) && (ip != broadcastAddress c) && (some ip != gw)) := by
  unfold createPool
  rw [List.map_map]
  have h : (IpRow.ip ∘ fun ip =>
      ({ ip := ip, vm_id := none, status := AllocStatus.available } : IpRow)) = id := rfl
  rw [h, List.map_id]

/-- The freshly created pool has pairwise distinct ips. -/
theorem createPool_ips_nodup (c : Cidr) (gw : Option Nat) :
    ((createPool c gw).map IpRow.ip).Nodup := by
  rw [createPool_map_ip]
  exact (((List.nodup_range _).map (fun a b hab => Nat.add_left_cancel hab))).filter _

/-- Every ip of the freshly created pool is a host address strictly
between the network and broadcast addresses and differs from the
gateway. -/
theorem createPool_ip_bounds (c : Cidr) (gw : Option Nat) :
    ∀ ipv ∈ (createPool c gw).map IpRow.ip,
      networkAddress c < ipv ∧ ipv < broadcastAddress c ∧ some ipv ≠ gw := by
  intro ipv hmem
  rw [createPool_map_ip] at hmem
  have h1 := List.of_mem_filter hmem
  have h2 := List.mem_of_mem_filter hmem
  obtain ⟨i, hi, rfl⟩ := List.mem_map.mp h2
  have hi' : i < hostSpan c := List.mem_range.mp hi
  have hspan : 0 < hostSpan c := pow_pos (by norm_num) _
  simp only [Bool.and_eq_true, bne_iff_ne, ne_eq] at h1
  obtain ⟨⟨hnet, hbc⟩, hgw⟩ := h1
  have hb : broadcastAddress c = networkAddress c + hostSpan c - 1 := rfl
  refine ⟨?_, ?_, hgw⟩ <;> omega

end IpPool

/-! Claim theorems. -/

/-- Claim C1. After every committed transition of the allocator, within a
single network every row whose status is not available has an ip that is
unique within the network and lies within the CIDR, and the network,
broadcast and gateway addresses are never in allocated or reserved
status. The allocator state is reached by applying any sequence of
operations to the pool pre materialized at network creation. -/
theorem c1_ip_pool_invariant (c : IpPool.Cidr) (gw : Option Nat) (ops : List IpPool.PoolOp)
    (rows : List IpPool.IpRow) (hrows : rows = IpPool.applyOps (IpPool.createPool c gw) ops) :
    rows.Pairwise (fun r s =>
      r.status ≠ IpPool.AllocStatus.available → s.status ≠ IpPool.AllocStatus.available →
        r.ip ≠ s.ip) ∧
    ∀ r ∈ rows, r.status ≠ IpPool.AllocStatus.available →
      IpPool.networkAddress c ≤ r.ip ∧ r.ip ≤ IpPool.broadcastAddress c ∧
      r.ip ≠ IpPool.networkAddress c ∧ r.ip ≠ IpPool.broadcastAddress c ∧ some r.ip ≠ gw := by
  have hips : rows.map IpPool.IpRow.ip = (IpPool.createPool c gw).map IpPool.IpRow.ip := by
    rw [hrows]; exact IpPool.applyOps_map_ip ops _
  constructor
  · have hnd : (rows.map IpPool.IpRow.ip).Nodup := by
      rw [hips]; exact IpPool.createPool_ips_nodup c gw
    rw [List.Nodup, List.pairwise_map] at hnd
    exact hnd.imp (fun h _ _ => h)
  · intro r hr _
    have hmem : r.ip ∈ (IpPool.createPool c gw).map IpPool.IpRow.ip := by
      rw [← hips]; exact List.mem_map_of_mem _ hr
    have hb := IpPool.createPool_ip_bounds c gw r.ip hmem
    exact ⟨le_of_lt hb.1, le_of_lt hb.2.1, ne_of_gt hb.1, ne_of_lt hb.2.1, hb.2.2⟩

/-- Witness for C1: the network 0/30 with gateway 1 leaves the single
host address 2; after one allocation that row is allocated and satisfies
the invariant. -/
theorem c1_ip_pool_invariant_witness :
    IpPool.networkAddress ⟨0, 30⟩ ≤ 2 ∧ 2 ≤ IpPool.broadcastAddress ⟨0, 30⟩ ∧
    (2 : Nat) ≠ IpPool.networkAddress ⟨0, 30⟩ ∧ (2 : Nat) ≠ IpPool.broadcastAddress ⟨0, 30⟩ ∧
    some (2 : Nat) ≠ some 1 := by
  have h := c1_ip_pool_invariant ⟨0, 30⟩ (some 1) [IpPool.PoolOp.allocate]
    [⟨2, none, IpPool.AllocStatus.allocated⟩] (by decide)
  exact h.2 ⟨2, none, IpPool.AllocStatus.allocated⟩ (by decide) (by decide)

/-- Claim C2 counterexample. The status starting is one of the lifecycle
states of the spec, yet a VmStatusUpdate carrying it for a listed VM
leaves the row unchanged (the component accepts only five states). -/
theorem c2_vm_status_update_counterexample :
    "starting" ∈ VmsComp.specVmLifecycleStates ∧
    VmsComp.handleVmStatusUpdate [⟨"v1", "vm1", "stopped"⟩] ⟨"v1", "starting", none⟩ =
      [⟨"v1", "vm1", "stopped"⟩] := by decide

/-- Claim C2 as amended. A VmStatusUpdate whose vm_id matches a VM of the
displayed list applies the new status to that row when the status is one
of the five states of validStatuses (running, stopped, stopping, paused,
error); an update carrying any other status, in particular starting,
restarting or migrating, leaves the list unchanged. -/
theorem c2_vm_status_update_amended :
    (∀ (vms : List VmsComp.VMRow) (u : VmsComp.VmStatusMsg) (v : VmsComp.VMRow),
      (vms.map VmsComp.VMRow.id).Nodup → v ∈ vms → v.id = u.vm_id →
      u.status ∈ VmsComp.validStatuses →
      { v with status := u.status } ∈ VmsComp.handleVmStatusUpdate vms u) ∧
    (∀ (vms : List VmsComp.VMRow) (u : VmsComp.VmStatusMsg),
      u.status ∉ VmsComp.validStatuses → VmsComp.handleVmStatusUpdate vms u = vms) := by
  constructor
  · intro vms u v
    induction vms with
    | nil => intro _ hv _ _; cases hv
    | cons a l ih =>
      intro hnd hv hid hstat
      rw [List.map_cons, List.nodup_cons] at hnd
      rcases List.mem_cons.mp hv with rfl | hvl
      · simp [VmsComp.handleVmStatusUpdate, hid, hstat]
      · have hne : a.id ≠ u.vm_id := by
          intro he
          exact hnd.1 (by
            rw [he.trans hid.symm]
            exact List.mem_map_of_mem VmsComp.VMRow.id hvl)
        simp only [VmsComp.handleVmStatusUpdate, if_neg hne]
        exact List.mem_cons_of_mem _ (ih hnd.2 hvl hid hstat)
  · intro vms u hstat
    induction vms with
    | nil => rfl
    | cons a l ih =>
      simp only [VmsComp.handleVmStatusUpdate]
      by_cases h : a.id = u.vm_id
      · rw [if_pos h, if_neg hstat]
      · rw [if_neg h, ih]

/-- Witness for the amended C2: a running update is applied, a migrating
update is ignored. -/
theorem c2_vm_status_update_amended_witness :
    (⟨"v1", "vm1", "running"⟩ : VmsComp.VMRow) ∈
      VmsComp.handleVmStatusUpdate [⟨"v1", "vm1", "stopped"⟩] ⟨"v1", "running", none⟩ ∧
    VmsComp.handleVmStatusUpdate [⟨"v2", "vm2", "running"⟩] ⟨"v2", "migrating", none⟩ =
      [⟨"v2", "vm2", "running"⟩] := by
  constructor
  · exact c2_vm_status_update_amended.1 [⟨"v1", "vm1", "stopped"⟩] ⟨"v1", "running", none⟩
      ⟨"v1", "vm1", "stopped"⟩ (by decide) (by decide) (by decide) (by decide)
  · exact c2_vm_status_update_amended.2 [⟨"v2", "vm2", "running"⟩] ⟨"v2", "migrating", none⟩
      (by decide)

/-- Value of the JavaScript or-default with default 0 on a present
total. -/
theorem jsOrNat_total (t : Nat) : jsOrNat (some t) 0 = t := by
  by_cases h : t = 0 <;> simp [jsOrNat, h]

/-- Value of the JavaScript or-default on a present non zero number. -/
theorem jsOrNat_some_ne (n d : Nat) (h : n ≠ 0) : jsOrNat (some n) d = n := by
  simp [jsOrNat, h]

/-- Claim C3 counterexample. A response that carries its paging data only
in the nested pagination object (current page 2, page size 10, total 50)
is transformed to the default view (page 1, size 20, total 0): the
nested shape is not handled. -/
theorem c3_pagination_shape_counterexample :
    VmSvc.transformVMsPagination ⟨none, none, none, some ⟨2, 10, 50⟩⟩ =
      ⟨1, 20, 0, 0, false, false⟩ ∧
    (VmSvc.transformVMsPagination ⟨none, none, none, some ⟨2, 10, 50⟩⟩).current_page ≠ 2 ∧
    (VmSvc.transformVMsPagination ⟨none, none, none, some ⟨2, 10, 50⟩⟩).total ≠ 50 := by decide

/-- Claim C3 as amended. The client transforms build the pagination view
from the flat top level fields page, page_size and total only: the nested
pagination object is ignored entirely (the view does not depend on it),
the network transform agrees with the vm transform, a flat response with
non zero page and page_size yields exactly those values, and a response
whose paging data sits only in a nested pagination object yields the
default view (page 1, size 20, total 0). -/
theorem c3_pagination_shape_amended :
    (∀ r : RawListResponse,
      VmSvc.transformVMsPagination r = VmSvc.transformVMsPagination { r with pagination := none }) ∧
    (∀ r : RawListResponse,
      NetworkSvc.transformNetworksPagination r = VmSvc.transformVMsPagination r) ∧
    (∀ p s t : Nat, p ≠ 0 → s ≠ 0 →
      VmSvc.transformVMsPagination ⟨some p, some s, some t, none⟩ =
        ⟨p, s, t, ceilDiv t s, decide (p < ceilDiv t s), decide (1 < p)⟩) ∧
    (∀ np : NestedPagination,
      VmSvc.transformVMsPagination ⟨none, none, none, some np⟩ = ⟨1, 20, 0, 0, false, false⟩) := by
  refine ⟨fun r => rfl, fun r => rfl, ?_, fun np => ?_⟩
  · intro p s t hp hs
    simp [VmSvc.transformVMsPagination, jsOrNat_some_ne p 1 hp, jsOrNat_some_ne s 20 hs,
      jsOrNat_total]
  · have h : VmSvc.transformVMsPagination ⟨none, none, none, some np⟩ =
        VmSvc.transformVMsPagination ⟨none, none, none, none⟩ := rfl
    rw [h]
    decide

/-- Witness for the amended C3: a flat response with page 2, page size
10, total 45 yields the view (2, 10, 45, 5 pages, next, prev). -/
theorem c3_pagination_shape_amended_witness :
    VmSvc.transformVMsPagination ⟨some 2, some 10, some 45, none⟩ =
      ⟨2, 10, 45, 5, true, true⟩ := by
  exact c3_pagination_shape_amended.2.2.1 2 10 45 (by decide) (by decide)

/-- Claim C4. When a storage volume, a network and a node are all
selected, createVm builds the request with exactly one disk entry
(volume, device vda, bootable) and one network interface entry (network,
model virtio, mac, ip and bridge absent); when any of the three is
missing, no request is built and an error message is produced instead. -/
theorem c4_create_vm_request :
    (∀ (fd : VmsComp.VmFormData) (vol net node : String),
      fd.selected_volume_id = some vol → fd.selected_network_id = some net →
      fd.node_id = some node →
      VmsComp.createVm fd = Except.ok
        { name := fd.name, node_id := node, vcpu := fd.vcpu, memory_mb := fd.memory_mb,
          disks := [{ volume_id := vol, device := "vda", bootable := true }],
          networks := [{ network_id := net, mac_address := none, ip_address := none,
                         model := "virtio", bridge_name := none }] }) ∧
    (∀ fd : VmsComp.VmFormData,
      fd.selected_volume_id = none ∨ fd.selected_network_id = none ∨ fd.node_id = none →
      ∃ msg, VmsComp.createVm fd = Except.error msg) := by
  constructor
  · intro fd vol net node hv hn hd
    simp [VmsComp.createVm, hv, hn, hd]
  · intro fd h
    rcases h with h | h | h
    · exact ⟨"请选择存储卷", by simp [VmsComp.createVm, h]⟩
    · cases hv : fd.selected_volume_id with
      | none => exact ⟨"请选择存储卷", by simp [VmsComp.createVm, hv]⟩
      | some vol => exact ⟨"请选择网络", by simp [VmsComp.createVm, hv, h]⟩
    · cases hv : fd.selected_volume_id with
      | none => exact ⟨"请选择存储卷", by simp [VmsComp.createVm, hv]⟩
      | some vol =>
        cases hn : fd.selected_network_id with
        | none => exact ⟨"请选择网络", by simp [VmsComp.createVm, hv, hn]⟩
        | some net => exact ⟨"请选择部署节点", by simp [VmsComp.createVm, hv, hn, h]⟩

/-- Witness for C4: the create form of the spec scenario (node n1, volume
v1, network net1) yields the documented request body. -/
theorem c4_create_vm_request_witness :
    VmsComp.createVm ⟨"vm1", some "n1", 2, 2048, some "v1", some "net1"⟩ =
      Except.ok ⟨"vm1", "n1", 2, 2048, [⟨"v1", "vda", true⟩],
        [⟨"net1", none, none, "virtio", none⟩]⟩ := by
  exact c4_create_vm_request.1 ⟨"vm1", some "n1", 2, 2048, some "v1", some "net1"⟩
    "v1" "net1" "n1" rfl rfl rfl

/-- Claim C5. Restore is offered exactly for snapshots whose status is
available; the restore request is dispatched only after the confirmation
dialog is accepted (cancel dispatches nothing), and the dialog text ends
with the warning that current data will be overwritten and the virtual
machine must be stopped. -/
theorem c5_snapshot_restore_confirm :
    (∀ s : SnapshotsComp.SnapshotResponse,
      SnapshotsComp.canRestore s = true ↔ s.status = "available") ∧
    (∀ s : SnapshotsComp.SnapshotResponse,
      SnapshotsComp.confirmRequests (SnapshotsComp.restoreSnapshotDialog s) false = []) ∧
    (∀ s : SnapshotsComp.SnapshotResponse,
      SnapshotsComp.confirmRequests (SnapshotsComp.restoreSnapshotDialog s) true =
        [SnapshotsComp.UiRequest.restore s.id]) ∧
    (∀ s : SnapshotsComp.SnapshotResponse, ∃ pre,
      (SnapshotsComp.restoreSnapshotDialog s).content =
        pre ++ "此操作将覆盖当前数据，请确保虚拟机已停止。") := by
  refine ⟨?_, fun s => rfl, fun s => rfl, ?_⟩
  · intro s
    simp [SnapshotsComp.canRestore]
  · intro s
    refine ⟨"确定要将存储卷 \"" ++ SnapshotsComp.jsStr s.volume_name ++ "\" 恢复到快照 \""
      ++ s.name ++ "\" 的状态吗？", ?_⟩
    have hsplit : ("\" 的状态吗？此操作将覆盖当前数据，请确保虚拟机已停止。" : String) =
        "\" 的状态吗？" ++ "此操作将覆盖当前数据，请确保虚拟机已停止。" := by decide
    simp only [SnapshotsComp.restoreSnapshotDialog]
    rw [hsplit, ← String.append_assoc]

/-- Witness for C5 at a concrete available snapshot. -/
theorem c5_snapshot_restore_confirm_witness :
    SnapshotsComp.canRestore ⟨"snap-1", "daily", "vol-1", some "data", "available"⟩ = true ∧
    SnapshotsComp.confirmRequests
      (SnapshotsComp.restoreSnapshotDialog ⟨"snap-1", "daily", "vol-1", some "data", "available"⟩)
      true = [SnapshotsComp.UiRequest.restore "snap-1"] ∧
    SnapshotsComp.confirmRequests
      (SnapshotsComp.restoreSnapshotDialog ⟨"snap-1", "daily", "vol-1", some "data", "available"⟩)
      false = [] := by
  refine ⟨(c5_snapshot_restore_confirm.1 _).mpr rfl, c5_snapshot_restore_confirm.2.2.1 _,
    c5_snapshot_restore_confirm.2.1 _⟩

/-- Claim C6. handleMessage forwards exactly the four update types to
their dedicated typed streams when the required fields are present and
non empty; a message of any other type (Pong included) is dispatched to
no typed stream; while the socket is open the heartbeat sends a ping
frame every 30000 milliseconds. -/
theorem c6_frontend_message_dispatch :
    (∀ (m : WebSocketSvc.FrontendMessage) (v s : String),
      m.type = "VmStatusUpdate" → m.vm_id = some v → m.status = some s → v ≠ "" → s ≠ "" →
      WebSocketSvc.handleMessage m = some (WebSocketSvc.TypedEvent.vmStatus v s m.message)) ∧
    (∀ (m : WebSocketSvc.FrontendMessage) (n s : String),
      m.type = "NodeStatusUpdate" → m.node_id = some n → m.status = some s → n ≠ "" → s ≠ "" →
      WebSocketSvc.handleMessage m = some (WebSocketSvc.TypedEvent.nodeStatus n s m.message)) ∧
    (∀ (m : WebSocketSvc.FrontendMessage) (t s : String),
      m.type = "TaskStatusUpdate" → m.task_id = some t → m.status = some s → t ≠ "" → s ≠ "" →
      WebSocketSvc.handleMessage m =
        some (WebSocketSvc.TypedEvent.taskStatus t s m.progress m.message)) ∧
    (∀ (m : WebSocketSvc.FrontendMessage) (ti msg lv : String),
      m.type = "SystemNotification" → m.title = some ti → m.message = some msg →
      m.level = some lv → ti ≠ "" → msg ≠ "" → lv ≠ "" →
      WebSocketSvc.handleMessage m =
        some (WebSocketSvc.TypedEvent.systemNotification ti msg lv)) ∧
    (∀ m : WebSocketSvc.FrontendMessage, m.type ∉ WebSocketSvc.dispatchedTypes →
      WebSocketSvc.handleMessage m = none) ∧
    WebSocketSvc.heartbeatIntervalMs = 30000 ∧
    WebSocketSvc.heartbeatTick true = some "ping" ∧
    WebSocketSvc.heartbeatTick false = none := by
  refine ⟨?_, ?_, ?_, ?_, ?_, rfl, rfl, rfl⟩
  · intro m v s ht hv hs hvne hsne
    simp [WebSocketSvc.handleMessage, ht, hv, hs, hvne, hsne]
  · intro m n s ht hn hs hnne hsne
    simp [WebSocketSvc.handleMessage, ht, hn, hs, hnne, hsne]
  · intro m t s ht htk hs htne hsne
    simp [WebSocketSvc.handleMessage, ht, htk, hs, htne, hsne]
  · intro m ti msg lv ht hti hmsg hlv h1 h2 h3
    simp [WebSocketSvc.handleMessage, ht, hti, hmsg, hlv, h1, h2, h3]
  · intro m hm
    simp only [WebSocketSvc.dispatchedTypes, List.mem_cons, List.not_mem_nil, or_false,
      not_or] at hm
    obtain ⟨h1, h2, h3, h4⟩ := hm
    simp [WebSocketSvc.handleMessage, h1, h2, h3, h4]

/-- Witness for C6: a well formed VmStatusUpdate is forwarded, a Pong is
not. -/
theorem c6_frontend_message_dispatch_witness :
    WebSocketSvc.handleMessage
        ⟨"VmStatusUpdate", some "vm-1", none, none, some "running", none, some "ok", none, none,
          none⟩
      = some (WebSocketSvc.TypedEvent.vmStatus "vm-1" "running" (some "ok")) ∧
    WebSocketSvc.handleMessage ⟨"Pong", none, none, none, none, none, none, none, none, some 1⟩
      = none := by
  constructor
  · exact c6_frontend_message_dispatch.1
      ⟨"VmStatusUpdate", some "vm-1", none, none, some "running", none, some "ok", none, none,
        none⟩
      "vm-1" "running" rfl rfl rfl (by decide) (by decide)
  · exact c6_frontend_message_dispatch.2.2.2.2.1
      ⟨"Pong", none, none, none, none, none, none, none, none, some 1⟩ (by decide)

/-- Claim C7. The body sent by updateNetwork carries only the name field:
cidr, gateway, vlan_id, mtu and config are absent, and node_id is not
even a field of the UpdateNetworkRequest interface, so an update can
change no attribute other than the name. -/
theorem c7_update_network_name_only :
    ∀ n : String,
      NetworkComp.requestFields (NetworkComp.updateNetworkBody n) = ["name"] ∧
      (NetworkComp.updateNetworkBody n).name = some n ∧
      "node_id" ∉ NetworkComp.updateNetworkRequestFieldNames := by
  intro n
  exact ⟨rfl, rfl, by decide⟩

/-- Witness for C7 at a concrete form value. -/
theorem c7_update_network_name_only_witness :
    NetworkComp.requestFields (NetworkComp.updateNetworkBody "net1") = ["name"] ∧
    (NetworkComp.updateNetworkBody "net1").name = some "net1" ∧
    "node_id" ∉ NetworkComp.updateNetworkRequestFieldNames :=
  c7_update_network_name_only "net1"

/-- Claim C8 counterexample. The close handler does not always schedule a
reconnect: once the attempt counter has reached maxReconnectAttempts
(five), handleReconnect schedules nothing, so reconnection does not
repeat until the connection is reestablished. -/
theorem c8_reconnect_counterexample :
    WebSocketSvc.handleReconnect 5 = none ∧ WebSocketSvc.maxReconnectAttempts = 5 := by decide

/-- Claim C8 as amended. After a close event the client schedules a
reconnect attempt 5000 milliseconds later only while fewer than five
consecutive failed attempts have occurred (the counter is reset to zero
by a successful open); after the fifth the close handler gives up and no
further reconnect is initiated. -/
theorem c8_reconnect_amended :
    WebSocketSvc.reconnectIntervalMs = 5000 ∧
    WebSocketSvc.onOpenAttempts = 0 ∧
    (∀ a, a < WebSocketSvc.maxReconnectAttempts →
      WebSocketSvc.handleReconnect a = some (a + 1, WebSocketSvc.reconnectIntervalMs)) ∧
    (∀ a, WebSocketSvc.maxReconnectAttempts ≤ a → WebSocketSvc.handleReconnect a = none) := by
  refine ⟨rfl, rfl, ?_, ?_⟩
  · intro a h
    simp [WebSocketSvc.handleReconnect, h]
  · intro a h
    simp [WebSocketSvc.handleReconnect, Nat.not_lt.mpr h]

/-- Witness for the amended C8: the first close schedules a reconnect
after 5000 milliseconds, the close after seven failed attempts schedules
none. -/
theorem c8_reconnect_amended_witness :
    WebSocketSvc.handleReconnect 0 = some (1, 5000) ∧
    WebSocketSvc.handleReconnect 7 = none :=
  ⟨c8_reconnect_amended.2.2.1 0 (by decide), c8_reconnect_amended.2.2.2 7 (by decide)⟩

/-- Claim C9. The snapshots component subscribes to a member named
snapshotStatusUpdates$ that is not among the observable members exposed
by WebSocketService, and no frontend message is ever dispatched to a
stream of that name, so snapshot status changes reach the component only
through explicit list reloads. -/
theorem c9_no_snapshot_stream :
    "snapshotStatusUpdates$" ∈ SnapshotsComp.subscribedStreams ∧
    "snapshotStatusUpdates$" ∉ WebSocketSvc.observableMembers ∧
    ∀ m : WebSocketSvc.FrontendMessage,
      WebSocketSvc.dispatchedStream m ≠ some "snapshotStatusUpdates$" := by
  refine ⟨by decide, by decide, ?_⟩
  intro m
  cases h : WebSocketSvc.handleMessage m with
  | none => simp [WebSocketSvc.dispatchedStream, h]
  | some e => cases e <;> simp [WebSocketSvc.dispatchedStream, h, WebSocketSvc.streamOf]

/-- Witness for C9 at a concrete forwarded message. -/
theorem c9_no_snapshot_stream_witness :
    WebSocketSvc.dispatchedStream
        ⟨"VmStatusUpdate", some "vm-1", none, none, some "running", none, none, none, none, none⟩
      ≠ some "snapshotStatusUpdates$" :=
  c9_no_snapshot_stream.2.2 _

/-- Claim C10 counterexample. A response with page and page_size present
but equal to zero yields view page 1 and size 20, not the present values:
the or-default treats a present zero like an absent field. -/
theorem c10_pagination_defaults_counterexample :
    (StorageSvc.transformStoragePoolsPagination ⟨some 0, some 0, some 50, none⟩).current_page = 1 ∧
    (StorageSvc.transformStoragePoolsPagination ⟨some 0, some 0, some 50, none⟩).per_page = 20 := by
  decide

/-- Claim C10 as amended. The transform yields current_page equal to
r.page when present and non zero else 1, per_page equal to r.page_size
when present and non zero else 20, total equal to r.total when present
else 0, total_pages the ceiling of total over per_page, has_next exactly
when current_page is below total_pages, and has_prev exactly when
current_page exceeds 1; the storage transform agrees with the vm one. -/
theorem c10_pagination_defaults_amended :
    (∀ r : RawListResponse,
      StorageSvc.transformStoragePoolsPagination r = VmSvc.transformVMsPagination r) ∧
    (∀ (r : RawListResponse) (v : PaginationView),
      v = StorageSvc.transformStoragePoolsPagination r →
      (∀ p, r.page = some p → p ≠ 0 → v.current_page = p) ∧
      ((r.page = none ∨ r.page = some 0) → v.current_page = 1) ∧
      (∀ s, r.page_size = some s → s ≠ 0 → v.per_page = s) ∧
      ((r.page_size = none ∨ r.page_size = some 0) → v.per_page = 20) ∧
      (∀ t, r.total = some t → v.total = t) ∧
      (r.total = none → v.total = 0) ∧
      v.total_pages = ceilDiv v.total v.per_page ∧
      (v.has_next = true ↔ v.current_page < v.total_pages) ∧
      (v.has_prev = true ↔ 1 < v.current_page)) := by
  refine ⟨fun r => rfl, ?_⟩
  intro r v hv
  subst hv
  refine ⟨?_, ?_, ?_, ?_, ?_, ?_, rfl, ?_, ?_⟩
  · intro p hp hpne
    simp [StorageSvc.transformStoragePoolsPagination, hp, jsOrNat_some_ne p 1 hpne]
  · intro hp
    rcases hp with hp | hp <;> simp [StorageSvc.transformStoragePoolsPagination, hp, jsOrNat]
  · intro s hs hsne
    simp [StorageSvc.transformStoragePoolsPagination, hs, jsOrNat_some_ne s 20 hsne]
  · intro hs
    rcases hs with hs | hs <;> simp [StorageSvc.transformStoragePoolsPagination, hs, jsOrNat]
  · intro t ht
    simp [StorageSvc.transformStoragePoolsPagination, ht, jsOrNat_total]
  · intro ht
    simp [StorageSvc.transformStoragePoolsPagination, ht, jsOrNat]
  · simp [StorageSvc.transformStoragePoolsPagination]
  · simp [StorageSvc.transformStoragePoolsPagination]

/-- Witness for the amended C10: a flat response with page 3 and size 10
yields exactly those view values. -/
theorem c10_pagination_defaults_amended_witness :
    (StorageSvc.transformStoragePoolsPagination ⟨some 3, some 10, some 25, none⟩).current_page = 3 ∧
    (StorageSvc.transformStoragePoolsPagination ⟨some 3, some 10, some 25, none⟩).per_page = 10 := by
  have h := c10_pagination_defaults_amended.2 ⟨some 3, some 10, some 25, none⟩
    (StorageSvc.transformStoragePoolsPagination ⟨some 3, some 10, some 25, none⟩) rfl
  exact ⟨h.1 3 rfl (by decide), h.2.2.1 10 rfl (by decide)⟩
